import Mathlib

/-!
Verification of the search-augmentation pipeline of `search_agent.py`.

Shallow embedding conventions:
* Python strings are `String` (or `List Char` where character-level slicing
  matters); `str.strip()` / `str.lower()` are modelled on ASCII/Unicode
  whitespace via `Char.isWhitespace` / `Char.toLower`.
* Every external effect (an Ollama chat call, the DuckDuckGo HTTP fetch, a
  page scrape) is an oracle parameter: the value the call would have
  produced (`none` models a raised/failed call).  Prompt strings that are
  only ever shipped to the model and never inspected by the program are
  absorbed into the oracles.
* Fallible code returns `Option`/`Except`; the dynamic typing error of
  `should_search_web` (string subscripted by a string) is an explicit
  `Except` error value.
* Ghost instrumentation: the pipeline result records, besides the Python
  return value, how many selection LLM calls were issued and the list of
  candidates that were tried, so that call-budget and ordering claims can
  be stated.
-/

/-- Constant `DUCKDUCKGO_MAX_RESULTS` of `search_agent.py`. -/
def DUCKDUCKGO_MAX_RESULTS : Nat := 5

/-- Constant `SEARCH_RETRY_LIMIT` of `search_agent.py`. -/
def SEARCH_RETRY_LIMIT : Nat := 3

/-- The double-quote character (written via its code point to keep the
character literal unambiguous). -/
def dqChar : Char := Char.ofNat 34

/-- The single-quote character. -/
def sqChar : Char := Char.ofNat 39

/-- Helper for Python `str.strip()` on a character list: drop whitespace
from both ends. -/
def stripChars (l : List Char) : List Char :=
  ((l.dropWhile Char.isWhitespace).reverse.dropWhile Char.isWhitespace).reverse

/-- Python `s.strip()`. -/
def pyStrip (s : String) : String :=
  ⟨stripChars s.data⟩

/-- Python `s.lower()` (ASCII model). -/
def pyLower (s : String) : String :=
  ⟨s.data.map Char.toLower⟩

/-- Helper: does `l` start with `pat`?  (Python `str.startswith` on lists.) -/
def listStartsWith : List Char → List Char → Bool
  | [], _ => true
  | _ :: _, [] => false
  | p :: ps, c :: cs => p = c && listStartsWith ps cs

/-- Helper: does `pat` occur contiguously inside `l`?  (Python `in`.) -/
def listHasSub (pat : List Char) : List Char → Bool
  | [] => listStartsWith pat []
  | c :: cs => listStartsWith pat (c :: cs) || listHasSub pat cs

/-- Python `'true' in content.lower()` — the boolean-reply parse shared by
`should_search_web` and `is_content_relevant`. -/
def containsTrue (content : String) : Bool :=
  listHasSub "true".data (content.data.map Char.toLower)

/-- Helper: numeric value of a digit string. -/
def digitsToNat (l : List Char) : Nat :=
  l.foldl (fun n c => 10 * n + (c.toNat - 48)) 0

/-- Python `int(content)` on ASCII decimal strings: surrounding whitespace
is ignored, an optional single sign is allowed, and the remainder must be a
non-empty digit string (underscore separators of Python literals are not
modelled; the program only ever range-checks the parsed value, so only
parse success/failure matters). -/
def pyInt (s : String) : Option Int :=
  let l := stripChars s.data
  let sd : Int × List Char :=
    match l with
    | c :: rest =>
      if c = '+' then (1, rest)
      else if c = '-' then (-1, rest)
      else (1, l)
    | [] => (1, [])
  if sd.2 ≠ [] ∧ sd.2.all Char.isDigit then
    some (sd.1 * (digitsToNat sd.2 : Int))
  else none

/-- One turn of the conversation: a Python dict
`{'role': ..., 'content': ...}` with exactly these keys. -/
structure Turn where
  role : String
  content : String
deriving DecidableEq

/-- One parsed search result as built by `perform_duckduckgo_search`. -/
structure Candidate where
  id : Nat
  title : String
  link : String
  snippet : String
deriving DecidableEq

/-- The `<a class='result__a'>` anchor of a result block: an optional
`href` attribute and the anchor text. -/
structure TitleTag where
  href : Option String
  text : String
deriving DecidableEq

/-- One `<div class='result'>` block of the DuckDuckGo HTML response, at
the granularity `perform_duckduckgo_search` inspects it: the title anchor
(if any) and the snippet anchor's text (if any). -/
structure ResultDiv where
  titleTag : Option TitleTag
  snippetText : Option String
deriving DecidableEq

/-- A Python value that may be passed as `conversation_history`: `main`
passes a plain string, the intended argument is a list of turn dicts. -/
inductive PyVal where
  | str : String → PyVal
  | turns : List Turn → PyVal
deriving DecidableEq

/-- A Python runtime error reachable in the embedded fragment. -/
inductive PyErr where
  | typeError
deriving DecidableEq

/-- The value of the Python expression
`content and 'true' in content.lower()`: `None` when `content` is `None`,
the empty string when `content` is `''`, and a real bool otherwise. -/
inductive PyBoolish where
  | pyBool : Bool → PyBoolish
  | pyNone : PyBoolish
  | pyStr : String → PyBoolish
deriving DecidableEq

/-- Python truthiness of a `PyBoolish` value. -/
def PyBoolish.truthy : PyBoolish → Bool
  | .pyBool b => b
  | .pyNone => false
  | .pyStr s => s ≠ ""

/-- Function `should_search_web` (lines 82-99).  `llmReply` is the oracle
for the `_call_ollama_decide` call (`none` = the call raised).  The second
component of a successful result counts the LLM calls issued (0 or 1).
On a string argument — which is what `main` actually passes — a non-empty
string reaches `conversation_history[-1]['role']`, subscripting a
one-character string by `'role'`, which raises `TypeError`. -/
def should_search_web (llmReply : Option String) :
    PyVal → Except PyErr (PyBoolish × Nat)
  | .str s =>
    if s = "" then .ok (.pyBool false, 0)
    else .error .typeError
  | .turns hs =>
    match hs.getLast? with
    | none => .ok (.pyBool false, 0)
    | some t =>
      if t.role ≠ "user" then .ok (.pyBool false, 0)
      else
        match llmReply with
        | none => .ok (.pyNone, 1)
        | some content =>
          .ok ((if content = "" then .pyStr "" else .pyBool (containsTrue content)), 1)

/-- The two sequential quote-stripping `if`s of `generate_search_query`
(lines 113-117): strip a surrounding double-quote pair if present, then
strip a surrounding single-quote pair from the result if present. -/
def stripQuotes (s : List Char) : List Char :=
  let s1 :=
    if s.head? = some dqChar ∧ s.getLast? = some dqChar then (s.drop 1).dropLast else s
  if s1.head? = some sqChar ∧ s1.getLast? = some sqChar then (s1.drop 1).dropLast else s1

/-- Function `generate_search_query` (lines 102-124).  `llmReply` is the
oracle for the `_call_ollama_chat` call.  The quote stripping runs only
when the reply is truthy (non-`None`, non-empty). -/
def generate_search_query (llmReply : Option String) : Option String :=
  match llmReply with
  | none => none
  | some q => some (if q = "" then q else ⟨stripQuotes q.data⟩)

/-- The Python predicate `s.head? = some q and s.getLast? = some q`, i.e.
`query.startswith(q) and query.endswith(q)` for a one-character `q`. -/
def pyWrappedBy (q : Char) (s : List Char) : Prop :=
  s.head? = some q ∧ s.getLast? = some q

instance (q : Char) (s : List Char) : Decidable (pyWrappedBy q s) :=
  inferInstanceAs (Decidable (_ ∧ _))

/-- Python `query[1:-1]`. -/
def pyUnwrap (s : List Char) : List Char :=
  (s.drop 1).dropLast

/-- The body of the result-block loop of `perform_duckduckgo_search`
(lines 146-165), with `i` the enumerate index of the head block.  `i` is
incremented for every block examined — also for blocks that are skipped —
and the loop breaks once `i` reaches `DUCKDUCKGO_MAX_RESULTS`.  A block is
skipped when it has no title anchor or the anchor's `href` is missing or
empty (Python truthiness of `title_tag.get('href')`); a missing snippet
anchor yields the fixed placeholder text. -/
def parseResultsGo : List ResultDiv → Nat → List Candidate
  | [], _ => []
  | d :: ds, i =>
    if DUCKDUCKGO_MAX_RESULTS ≤ i then []
    else
      match d.titleTag with
      | none => parseResultsGo ds (i + 1)
      | some tt =>
        match tt.href with
        | none => parseResultsGo ds (i + 1)
        | some href =>
          if href = "" then parseResultsGo ds (i + 1)
          else
            { id := i, title := pyStrip tt.text, link := href,
              snippet :=
                match d.snippetText with
                | some st => pyStrip st
                | none => "No description available." } :: parseResultsGo ds (i + 1)

/-- Function `perform_duckduckgo_search` (lines 127-170).  `fetched` is
the oracle for the HTTP GET: `none` models a raised
`requests.exceptions.RequestException` (empty list returned), `some divs`
the parsed `<div class='result'>` blocks of the response body in document
order. -/
def perform_duckduckgo_search (fetched : Option (List ResultDiv)) : List Candidate :=
  match fetched with
  | none => []
  | some divs => parseResultsGo divs 0

/-- The retry loop of `select_best_search_result_id` (lines 193-211).
`llm` maps the index of a selection LLM call to its reply (`none` = the
call raised); `k` is the number of selection calls already issued in this
pipeline run (ghost state); `n` is `len(search_results)`; the first `Nat`
argument is the number of attempts still available.  Returns the selected
index (validated `0 <= best_id < n`) or `none`, paired with the updated
call count. -/
def selectAttempts (llm : Nat → Option String) (n : Nat) :
    Nat → Nat → Option Nat × Nat
  | 0, k => (none, k)
  | a + 1, k =>
    match llm k with
    | none => selectAttempts llm n a (k + 1)
    | some content =>
      match pyInt content with
      | none => selectAttempts llm n a (k + 1)
      | some b =>
        if 0 ≤ b ∧ b < (n : Int) then (some b.toNat, k + 1)
        else selectAttempts llm n a (k + 1)

/-- Function `select_best_search_result_id` (lines 172-214): on an empty
list return the sentinel without any call; otherwise run the retry loop
with `SEARCH_RETRY_LIMIT` attempts. -/
def select_best_search_result_id (llm : Nat → Option String) (k : Nat)
    (searchResults : List Candidate) : Option Nat × Nat :=
  if searchResults.isEmpty then (none, k)
  else selectAttempts llm searchResults.length SEARCH_RETRY_LIMIT k

/-- The `max_text_len` local of `is_content_relevant`. -/
def max_text_len : Nat := 8000

/-- The expression
`page_text[:max_text_len] + ('...' if len(page_text) > max_text_len else '')`
of `is_content_relevant` (line 249). -/
def truncatedPageText (t : List Char) : List Char :=
  t.take max_text_len ++ (if max_text_len < t.length then "...".data else [])

/-- The `user_data` dict built by `is_content_relevant` (lines 251-255). -/
structure RelevanceData where
  page_text : List Char
  user_prompt : String
  search_query : String
deriving DecidableEq

/-- The prompt data constructed by `is_content_relevant` before the LLM
call: the page text is truncated, the other fields pass through. -/
def is_content_relevant_data (pageText : List Char) (userPrompt query : String) :
    RelevanceData :=
  { page_text := truncatedPageText pageText,
    user_prompt := userPrompt,
    search_query := query }

/-- Function `is_content_relevant` (lines 244-263): the truncated prompt is
shipped to the oracle `llmReply`, whose reply is parsed with the shared
`'true' in content.lower()` rule (same `content and ...` value shape as
`should_search_web`). -/
def is_content_relevant (llmReply : Option String) (pageText : List Char)
    (userPrompt query : String) : RelevanceData × PyBoolish :=
  (is_content_relevant_data pageText userPrompt query,
   match llmReply with
   | none => .pyNone
   | some content =>
     if content = "" then .pyStr "" else .pyBool (containsTrue content))

/-- Python `list.pop(i)` for a non-negative index: the removed element and
the remaining list, or `none` for an `IndexError`. -/
def listPopAt {α : Type} : List α → Nat → Option (α × List α)
  | [], _ => none
  | x :: xs, 0 => some (x, xs)
  | x :: xs, n + 1 => (listPopAt xs n).map (fun pr => (pr.1, x :: pr.2))

/-- Result of one pipeline run.  `out` is the Python return value;
`calls` counts the selection LLM calls issued (ghost); `tried` lists the
candidates removed from the working list and tried, in order (ghost). -/
structure PipeResult where
  out : Option String
  calls : Nat
  tried : List Candidate
deriving DecidableEq

/-- The scrape-and-judge tail of one iteration of the candidate-exhaustion
loop (lines 316-331), applied to the candidate just removed from the
working list.  `k'` is the selection-call count after this iteration's
selection; `r` is the result of the remaining iterations (in the source,
`continue`; on a relevant extract the loop returns early and `r` is
irrelevant).  Python truthiness of `page_content` is modelled by the
emptiness test even though `scrape_webpage_content` never returns an empty
extract. -/
def pipelineStepResult (scrape : String → Option String)
    (relevant : String → Bool) (chosen : Candidate) (k' : Nat)
    (r : PipeResult) : PipeResult :=
  match scrape chosen.link with
  | some content =>
    if content ≠ "" then
      if relevant content then ⟨some content, k', [chosen]⟩
      else ⟨r.out, r.calls, chosen :: r.tried⟩
    else ⟨r.out, r.calls, chosen :: r.tried⟩
  | none => ⟨r.out, r.calls, chosen :: r.tried⟩

/-- The candidate-exhaustion loop of `run_ai_search_pipeline`
(lines 282-331).  The first `Nat` argument is the remaining iteration
budget (`range(min(len(available_results), SEARCH_RETRY_LIMIT))`, computed
once before the loop); the list is the mutable `available_results`; the
final `Nat` is the selection-call count so far.  On a `None` selection, or
a selection that is out of range at `pop` time (`IndexError`), the first
remaining candidate is popped instead; `scrape` is the oracle for
`scrape_webpage_content` (`none` = download/extraction failed), `relevant`
the oracle for the relevance LLM verdict on a given extract. -/
def pipelineLoop (llm : Nat → Option String) (scrape : String → Option String)
    (relevant : String → Bool) : Nat → List Candidate → Nat → PipeResult
  | 0, _, k => ⟨none, k, []⟩
  | _ + 1, [], k => ⟨none, k, []⟩
  | fuel + 1, c :: cs, k =>
    let sel := select_best_search_result_id llm k (c :: cs)
    let pop : Candidate × List Candidate :=
      match sel.1 with
      | none => (c, cs)
      | some b =>
        match listPopAt (c :: cs) b with
        | some pr => pr
        | none => (c, cs)
    pipelineStepResult scrape relevant pop.1 sel.2
      (pipelineLoop llm scrape relevant fuel pop.2 sel.2)

/-- Function `run_ai_search_pipeline` (lines 265-335).  Oracles:
`queryReply` for the query-synthesis LLM call, `llm` for the selection LLM
calls, `fetched` for the DuckDuckGo HTTP response, `scrape` for
per-URL content extraction, `relevant` for the relevance LLM verdict. -/
def run_ai_search_pipeline (queryReply : Option String)
    (llm : Nat → Option String) (fetched : Option (List ResultDiv))
    (scrape : String → Option String) (relevant : String → Bool) : PipeResult :=
  match generate_search_query queryReply with
  | none => ⟨none, 0, []⟩
  | some q =>
    if q = "" then ⟨none, 0, []⟩
    else
      if (perform_duckduckgo_search fetched).isEmpty then ⟨none, 0, []⟩
      else
        pipelineLoop llm scrape relevant
          (min (perform_duckduckgo_search fetched).length SEARCH_RETRY_LIMIT)
          (perform_duckduckgo_search fetched) 0

/-- Function `stream_and_record_assistant_response` (lines 338-374).
`chunks` are the tokens emitted by the stream before it either completed
(`ok = true`) or raised (`ok = false`); the accumulated text lives in a
local and is appended as an assistant turn only after the stream completed.
The second component of the result is whether the user-visible
`[ERROR] ...` message was printed. -/
def stream_and_record_assistant_response (chunks : List String) (ok : Bool)
    (history : List Turn) : List Turn × Bool :=
  if history = [] then (history, false)
  else if ok then (history ++ [⟨"assistant", String.join chunks⟩], false)
  else (history, true)

/-- The environment of one `main` REPL iteration: one oracle per external
effect the iteration may perform. -/
structure MainOracles where
  decideReply : Option String
  queryReply : Option String
  selReplies : Nat → Option String
  fetched : Option (List ResultDiv)
  scrape : String → Option String
  relevant : String → Bool
  streamOk : Bool
  streamChunks : List String

/-- How one `main` REPL iteration ended. -/
inductive MainAction where
  | exit
  | skip
  | done
  | criticalError
deriving DecidableEq

/-- The prompt rewrite of `main` when the pipeline returned context
(lines 411-414). -/
def promptWithContext (ctx original : String) : String :=
  "Based on the following information: \n---BEGIN INFO---\n" ++ ctx ++
    "\n---END INFO---\n\nPlease answer this question or address this request: \"" ++
    original ++ "\""

/-- The prompt rewrite of `main` when the pipeline returned no context
(lines 422-426). -/
def promptFailedSearch (original : String) : String :=
  "I tried to find information on the web to answer your request: \"" ++ original ++
    "\", but I couldn't find relevant information or the search failed. " ++
    "Please answer based on your general knowledge, or state that you couldn't find the specific information."

/-- One iteration of the `while True` REPL loop of `main`
(lines 383-443), given the input line read.  Note the call
`should_search_web(last_user_prompt_content)` passes the raw input string
(line 400); an exception from it lands in the generic handler (line 441),
which prints a critical error and continues the loop. -/
def mainIter (O : MainOracles) (history : List Turn) (input : String) :
    List Turn × MainAction :=
  if pyLower input = "quit" ∨ pyLower input = "exit" then (history, .exit)
  else if pyStrip input = "" then (history, .skip)
  else
    match should_search_web O.decideReply (.str input) with
    | .error _ => (history ++ [⟨"user", input⟩], .criticalError)
    | .ok (d, _) =>
      let h1 := history ++ [⟨"user", input⟩]
      let h2 :=
        if d.truthy then
          let ctx := (run_ai_search_pipeline O.queryReply O.selReplies O.fetched
            O.scrape O.relevant).out
          let original := ((h1.getLast?).map Turn.content).getD ""
          let popped := h1.dropLast
          match ctx with
          | some c =>
            if c ≠ "" then popped ++ [⟨"user", promptWithContext c original⟩]
            else popped ++ [⟨"user", promptFailedSearch original⟩]
          | none => popped ++ [⟨"user", promptFailedSearch original⟩]
        else h1
      ((stream_and_record_assistant_response O.streamChunks O.streamOk h2).1, .done)

/-- The `main` REPL loop over a finite list of input lines, starting from
a given conversation history (the source starts from
`[sys_msgs.asistant_msg]`, a fixed non-user system message defined outside
this repository's core file). -/
def runMain (O : MainOracles) (history : List Turn) : List String → List Turn
  | [] => history
  | s :: rest =>
    match mainIter O history s with
    | (h', .exit) => h'
    | (h', _) => runMain O h' rest

/-- Does the history contain two consecutive turns whose role is `user`? -/
def hasConsecutiveUserTurns : List Turn → Bool
  | t1 :: t2 :: rest =>
    (t1.role = "user" && t2.role = "user") || hasConsecutiveUserTurns (t2 :: rest)
  | _ => false

/-! ### Claim C7 — short-circuit of the search decision -/

/-- C7: for every conversation history (list of turns) that is empty or
whose last turn's role is not `user`, `should_search_web` returns `False`
without issuing any language-model call (the call count is 0). -/
theorem should_search_web_short_circuit (llmReply : Option String)
    (hs : List Turn) (h : ∀ t ∈ hs.getLast?, t.role ≠ "user") :
    should_search_web llmReply (.turns hs) = .ok (.pyBool false, 0) := by
  simp only [should_search_web]
  cases hlast : hs.getLast? with
  | none => rfl
  | some t =>
    have := h t (by rw [hlast]; exact rfl)
    simp [this]

/-- Witness for C7 at the empty history. -/
theorem should_search_web_short_circuit_witness :
    should_search_web none (.turns []) = .ok (.pyBool false, 0) :=
  should_search_web_short_circuit none [] (by simp)

/-! ### Claim C8 — relevance-gate truncation -/

/-- C8: `is_content_relevant` puts into its prompt data exactly the first
8000 characters of the page text, with the `...` marker appended iff the
text is longer than 8000 characters; shorter text passes through
unchanged. -/
theorem is_content_relevant_truncates_at_8000 (t : List Char) (up q : String) :
    (is_content_relevant_data t up q).page_text =
      if 8000 < t.length then t.take 8000 ++ "...".data else t := by
  show truncatedPageText t = _
  unfold truncatedPageText max_text_len
  by_cases h : 8000 < t.length
  · simp [h]
  · have hle : t.length ≤ 8000 := by omega
    simp [h, List.take_of_length_le hle]

/-! ### Claim C9 — streaming failure leaves the history untouched -/

/-- C9: if the final streaming call raises, the user-visible error message
is printed and `conversation_history` is exactly what it was on entry — in
particular no assistant turn and none of the partially accumulated chunks
are appended. -/
theorem stream_and_record_failure_preserves_history (chunks : List String)
    (history : List Turn) (h : history ≠ []) :
    stream_and_record_assistant_response chunks false history = (history, true) := by
  unfold stream_and_record_assistant_response
  simp [h]

/-- Witness for C9 on a one-turn history and a partially streamed chunk. -/
theorem stream_and_record_failure_witness :
    stream_and_record_assistant_response ["partial"] false [⟨"system", "m"⟩] =
      ([⟨"system", "m"⟩], true) :=
  stream_and_record_failure_preserves_history ["partial"] [⟨"system", "m"⟩] (by simp)

/-! ### Claim C10 — `main` passes a string to `should_search_web` -/

/-- C10: for every non-empty string `s`, `should_search_web` applied to
`s` — as `main` applies it to the raw input line — raises `TypeError`
(from `conversation_history[-1]['role']`), and every `main` iteration
whose input is not `quit`/`exit` and not whitespace-only appends the user
turn, hits that `TypeError`, and falls into the generic handler: the
search decision never succeeds from `main`. -/
theorem should_search_web_string_type_error (r : Option String) (s : String)
    (h1 : s ≠ "") :
    should_search_web r (.str s) = .error .typeError ∧
      ∀ (O : MainOracles) (history : List Turn),
        pyLower s ≠ "quit" → pyLower s ≠ "exit" → pyStrip s ≠ "" →
          mainIter O history s = (history ++ [⟨"user", s⟩], .criticalError) := by
  constructor
  · unfold should_search_web
    simp [h1]
  · intro O history hq he hs
    unfold mainIter
    have herr : should_search_web O.decideReply (.str s) = .error .typeError := by
      unfold should_search_web
      simp [h1]
    simp [hq, he, hs, herr]

/-- Witness for C10 at the input string `hi`. -/
theorem should_search_web_string_type_error_witness :
    should_search_web none (.str "hi") = .error .typeError ∧
      mainIter ⟨none, none, fun _ => none, none, fun _ => none, fun _ => false,
          false, []⟩ [⟨"system", "m"⟩] "hi" =
        ([⟨"system", "m"⟩, ⟨"user", "hi"⟩], .criticalError) :=
  ⟨(should_search_web_string_type_error none "hi" (by decide)).1,
   (should_search_web_string_type_error none "hi" (by decide)).2 _ _
     (by decide) (by decide) (by decide)⟩

/-! ### Claim C4 — quote stripping of the synthesized query -/

/-- C4 (counterexample): on the double-quoted single-quoted reply
`"'x'"`, `generate_search_query` strips BOTH quote pairs, not just the
outer one: the result is `x`, not `'x'`. -/
theorem stripQuotes_double_then_single_strips_two :
    stripQuotes [dqChar, sqChar, 'x', sqChar, dqChar] = ['x'] ∧
      ['x'] ≠ [sqChar, 'x', sqChar] := by
  constructor
  · rfl
  · decide

/-- C4 (amended): `generate_search_query` first strips a surrounding
double-quote pair if present, then a surrounding single-quote pair from
the result if present.  Hence: a string wrapped in neither kind of quote
pair (asymmetric or internal quotes included) is unchanged; exactly one
pair is stripped unless the string is double-quote-wrapped around a
single-quote-wrapped core, in which case both pairs are stripped. -/
theorem generate_search_query_quote_strip_characterization (s : List Char) :
    (¬ pyWrappedBy dqChar s ∧ ¬ pyWrappedBy sqChar s ∧ stripQuotes s = s)
    ∨ (pyWrappedBy dqChar s ∧ ¬ pyWrappedBy sqChar (pyUnwrap s) ∧
        stripQuotes s = pyUnwrap s)
    ∨ (¬ pyWrappedBy dqChar s ∧ pyWrappedBy sqChar s ∧
        stripQuotes s = pyUnwrap s)
    ∨ (pyWrappedBy dqChar s ∧ pyWrappedBy sqChar (pyUnwrap s) ∧
        stripQuotes s = pyUnwrap (pyUnwrap s)) := by
  by_cases h1 : pyWrappedBy dqChar s
  · by_cases h2 : pyWrappedBy sqChar (pyUnwrap s)
    · exact Or.inr (Or.inr (Or.inr ⟨h1, h2, by
        unfold stripQuotes pyUnwrap pyWrappedBy at *
        simp only [h1.1, h1.2, and_self, if_true, h2.1, h2.2, if_pos]⟩))
    · exact Or.inr (Or.inl ⟨h1, h2, by
        unfold stripQuotes pyUnwrap pyWrappedBy at *
        simp only [h1.1, h1.2, and_self, if_true]
        rw [if_neg h2]⟩)
  · by_cases h3 : pyWrappedBy sqChar s
    · exact Or.inr (Or.inr (Or.inl ⟨h1, h3, by
        unfold stripQuotes pyUnwrap pyWrappedBy at *
        rw [if_neg h1, if_pos h3]⟩))
    · exact Or.inl ⟨h1, h3, by
        unfold stripQuotes pyWrappedBy at *
        rw [if_neg h1, if_neg h3]⟩

/-! ### Claim C6 — the selector returns an in-range index or the sentinel -/

/-- Helper: any index produced by the retry loop passed its range
validation against `n`. -/
theorem selectAttempts_in_range (llm : Nat → Option String) (n : Nat) :
    ∀ (a k b : Nat), (selectAttempts llm n a k).1 = some b → b < n := by
  intro a
  induction a with
  | zero => intro k b hb; simp [selectAttempts] at hb
  | succ a ih =>
    intro k b hb
    unfold selectAttempts at hb
    split at hb
    · exact ih _ _ hb
    · split at hb
      · exact ih _ _ hb
      · split at hb
        · rename_i i heq hr
          have hi : i.toNat = b := by simpa using hb
          omega
        · exact ih _ _ hb

/-- C6: `select_best_search_result_id` is total (the embedding is a plain
function: invalid/unparseable replies and call failures are consumed by
the retry loop, never surfaced) and returns either the sentinel `none`
or an integer index strictly below the length of the list it was passed. -/
theorem select_best_search_result_id_in_range (llm : Nat → Option String)
    (k : Nat) (searchResults : List Candidate) (b : Nat)
    (h : (select_best_search_result_id llm k searchResults).1 = some b) :
    b < searchResults.length := by
  unfold select_best_search_result_id at h
  by_cases he : searchResults.isEmpty
  · rw [if_pos he] at h; simp at h
  · rw [if_neg he] at h
    exact selectAttempts_in_range llm searchResults.length SEARCH_RETRY_LIMIT k b h

/-- Witness for C6: a reply of `1` against a two-candidate list is
accepted and is in range. -/
theorem select_best_search_result_id_in_range_witness :
    (select_best_search_result_id (fun _ => some "1") 0
        [⟨0, "A", "a", "s"⟩, ⟨1, "B", "b", "s"⟩]).1 = some 1 ∧
      1 < ([⟨0, "A", "a", "s"⟩, ⟨1, "B", "b", "s"⟩] : List Candidate).length :=
  ⟨by decide,
   select_best_search_result_id_in_range (fun _ => some "1") 0
     [⟨0, "A", "a", "s"⟩, ⟨1, "B", "b", "s"⟩] 1 (by decide)⟩

/-! ### Claim C1 — selection-call budget of one pipeline run -/

/-- Helper: the retry loop issues at most `a` further LLM calls. -/
theorem selectAttempts_calls_le (llm : Nat → Option String) (n : Nat) :
    ∀ (a k : Nat), (selectAttempts llm n a k).2 ≤ k + a := by
  intro a
  induction a with
  | zero => intro k; simp [selectAttempts]
  | succ a ih =>
    intro k
    unfold selectAttempts
    split
    · exact le_trans (ih (k + 1)) (by omega)
    · split
      · exact le_trans (ih (k + 1)) (by omega)
      · split
        · show k + 1 ≤ k + (a + 1); omega
        · exact le_trans (ih (k + 1)) (by omega)

/-- Helper: one invocation of `select_best_search_result_id` issues at
most `SEARCH_RETRY_LIMIT = 3` LLM calls. -/
theorem select_best_search_result_id_calls_le (llm : Nat → Option String)
    (k : Nat) (rs : List Candidate) :
    (select_best_search_result_id llm k rs).2 ≤ k + 3 := by
  unfold select_best_search_result_id
  by_cases he : rs.isEmpty
  · rw [if_pos he]; omega
  · rw [if_neg he]
    exact selectAttempts_calls_le llm rs.length SEARCH_RETRY_LIMIT k

/-- Helper: the call count of one loop iteration is either the count after
its selection or the count of the remaining iterations. -/
theorem pipelineStepResult_calls_le (scrape : String → Option String)
    (relevant : String → Bool) (chosen : Candidate) (k' : Nat)
    (r : PipeResult) (m : Nat) (h1 : k' ≤ m) (h2 : r.calls ≤ m) :
    (pipelineStepResult scrape relevant chosen k' r).calls ≤ m := by
  unfold pipelineStepResult
  split
  · split
    · split
      · exact h1
      · exact h2
    · exact h2
  · exact h2

/-- Helper: the candidate-exhaustion loop issues at most 3 selection LLM
calls per remaining iteration. -/
theorem pipelineLoop_calls_le (llm : Nat → Option String)
    (scrape : String → Option String) (relevant : String → Bool) :
    ∀ (fuel : Nat) (rs : List Candidate) (k : Nat),
      (pipelineLoop llm scrape relevant fuel rs k).calls ≤ k + 3 * fuel := by
  intro fuel
  induction fuel with
  | zero => intro rs k; simp [pipelineLoop]
  | succ fuel ih =>
    intro rs k
    match rs with
    | [] => simp [pipelineLoop]
    | c :: cs =>
      have hsel := select_best_search_result_id_calls_le llm k (c :: cs)
      rw [pipelineLoop]
      apply pipelineStepResult_calls_le
      · omega
      · exact le_trans (ih _ _) (by omega)

/-- C1 (amended): the retry budget of `select_best_search_result_id` is
granted anew on each loop iteration, so the total number of selection LLM
calls across one pipeline run is bounded by 3 calls per iteration of the
`min(initialCandidateCount, 3)`-iteration loop — at most
`3 * min(n, 3) ≤ 9`, not 3. -/
theorem run_ai_search_pipeline_selection_calls_le_nine (queryReply : Option String)
    (llm : Nat → Option String) (fetched : Option (List ResultDiv))
    (scrape : String → Option String) (relevant : String → Bool) :
    (run_ai_search_pipeline queryReply llm fetched scrape relevant).calls ≤
      3 * min (perform_duckduckgo_search fetched).length 3 := by
  unfold run_ai_search_pipeline
  split
  · simp
  · split
    · simp
    · split
      · simp
      · have := pipelineLoop_calls_le llm scrape relevant
          (min (perform_duckduckgo_search fetched).length SEARCH_RETRY_LIMIT)
          (perform_duckduckgo_search fetched) 0
        simpa [SEARCH_RETRY_LIMIT] using this

/-- C1 (counterexample): with three valid candidates and a selection LLM
that always replies with the unparseable string `x`, one pipeline run
issues 9 selection LLM calls — the budget `R = 3` is NOT shared across the
candidate-exhaustion loop. -/
theorem run_ai_search_pipeline_selection_calls_reach_nine :
    ¬ ((run_ai_search_pipeline (some "q") (fun _ => some "x")
          (some [⟨some ⟨some "u1", "T1"⟩, none⟩, ⟨some ⟨some "u2", "T2"⟩, none⟩,
            ⟨some ⟨some "u3", "T3"⟩, none⟩])
          (fun _ => none) (fun _ => false)).calls ≤ 3) := by
  decide

/-! ### Claim C3 — shape of the parsed search results -/

/-- One result block of the parse, as a function of the block and its
enumerate index: `none` when the block is skipped (no title anchor, or a
missing/empty `href`), otherwise the candidate that
`perform_duckduckgo_search` appends for it, carrying the enumerate index
as its `id`. -/
def parseBlockAt (pr : Nat × ResultDiv) : Option Candidate :=
  match pr.2.titleTag with
  | none => none
  | some tt =>
    match tt.href with
    | none => none
    | some href =>
      if href = "" then none
      else
        some { id := pr.1, title := pyStrip tt.text, link := href,
               snippet :=
                 match pr.2.snippetText with
                 | some st => pyStrip st
                 | none => "No description available." }

/-- Helper: the block loop from index `i` processes exactly the blocks up
to enumerate index `DUCKDUCKGO_MAX_RESULTS`, keeping the survivors of
`parseBlockAt`. -/
theorem parseResultsGo_eq (ds : List ResultDiv) :
    ∀ i, parseResultsGo ds i =
      (List.enumFrom i (ds.take (DUCKDUCKGO_MAX_RESULTS - i))).filterMap parseBlockAt := by
  induction ds with
  | nil => intro i; simp [parseResultsGo]
  | cons d ds ih =>
    intro i
    by_cases h : DUCKDUCKGO_MAX_RESULTS ≤ i
    · have h0 : DUCKDUCKGO_MAX_RESULTS - i = 0 := by omega
      unfold parseResultsGo
      rw [if_pos h, h0]
      simp
    · have hstep : DUCKDUCKGO_MAX_RESULTS - i = (DUCKDUCKGO_MAX_RESULTS - (i + 1)) + 1 := by
        unfold DUCKDUCKGO_MAX_RESULTS at h ⊢; omega
      unfold parseResultsGo
      rw [if_neg h, hstep, List.take_succ_cons, List.enumFrom_cons, List.filterMap_cons]
      cases htt : d.titleTag with
      | none => simp [parseBlockAt, htt, ih (i + 1)]
      | some tt =>
        cases hh : tt.href with
        | none => simp [parseBlockAt, htt, hh, ih (i + 1)]
        | some href =>
          by_cases hemp : href = ""
          · simp [parseBlockAt, htt, hh, hemp, ih (i + 1)]
          · simp [parseBlockAt, htt, hh, hemp, ih (i + 1)]

/-- Helper: every candidate produced from index `i` onward carries an
ordinal of at least `i`. -/
theorem parseResultsGo_id_ge (ds : List ResultDiv) :
    ∀ i, ∀ c ∈ parseResultsGo ds i, i ≤ c.id := by
  induction ds with
  | nil => intro i c hc; simp [parseResultsGo] at hc
  | cons d ds ih =>
    intro i c hc
    unfold parseResultsGo at hc
    split at hc
    · simp at hc
    · split at hc
      · exact le_trans (by omega) (ih (i + 1) c hc)
      · split at hc
        · exact le_trans (by omega) (ih (i + 1) c hc)
        · split at hc
          · exact le_trans (by omega) (ih (i + 1) c hc)
          · rcases List.mem_cons.mp hc with h | h
            · rw [h]
            · exact le_trans (by omega) (ih (i + 1) c h)

/-- Helper: ordinals are strictly increasing along the parsed list. -/
theorem parseResultsGo_pairwise (ds : List ResultDiv) :
    ∀ i, List.Pairwise (fun a b => a.id < b.id) (parseResultsGo ds i) := by
  induction ds with
  | nil => intro i; simp [parseResultsGo]
  | cons d ds ih =>
    intro i
    unfold parseResultsGo
    split
    · simp
    · split
      · exact ih (i + 1)
      · split
        · exact ih (i + 1)
        · split
          · exact ih (i + 1)
          · refine List.pairwise_cons.mpr ⟨fun c hc => ?_, ih (i + 1)⟩
            have := parseResultsGo_id_ge ds (i + 1) c hc
            show i < c.id
            omega

/-- C3 (amended): for every fetched document, `perform_duckduckgo_search`
examines only the first 5 result blocks, drops any of them missing a
title anchor or a (non-empty) link, defaults a missing snippet to the
fixed placeholder, and preserves document order; it returns at most 5
candidates whose ordinals are strictly increasing.  However, a returned
candidate's ordinal is the index of its block among ALL examined blocks
(`parseBlockAt` receives the enumerate index), so dropped blocks leave
gaps: the ordinals are NOT in general the gap-free sequence 0, 1, 2, …. -/
theorem perform_duckduckgo_search_parse_characterization (divs : List ResultDiv) :
    perform_duckduckgo_search (some divs) = ((divs.take 5).enum).filterMap parseBlockAt
    ∧ (perform_duckduckgo_search (some divs)).length ≤ 5
    ∧ List.Pairwise (fun a b => a.id < b.id) (perform_duckduckgo_search (some divs)) := by
  refine ⟨?_, ?_, ?_⟩
  · show parseResultsGo divs 0 = _
    rw [parseResultsGo_eq]
    rfl
  · show (parseResultsGo divs 0).length ≤ 5
    rw [parseResultsGo_eq]
    calc ((List.enumFrom 0 (divs.take (DUCKDUCKGO_MAX_RESULTS - 0))).filterMap parseBlockAt).length
        ≤ (List.enumFrom 0 (divs.take (DUCKDUCKGO_MAX_RESULTS - 0))).length :=
          List.length_filterMap_le _ _
      _ = (divs.take (DUCKDUCKGO_MAX_RESULTS - 0)).length := List.enumFrom_length
      _ ≤ 5 := List.length_take_le _ _
  · exact parseResultsGo_pairwise divs 0

/-- C3 (counterexample): a document whose first block lacks a link and
whose second block is valid yields the single candidate ordinal list `[1]`
— not the gap-free `0, 1, 2, …` sequence the claim asserts (which for one
candidate would be `[0]`). -/
theorem perform_duckduckgo_search_ordinal_gap :
    (perform_duckduckgo_search
        (some [⟨none, none⟩, ⟨some ⟨some "http://a", "T"⟩, none⟩])).map (fun c => c.id) ≠
      List.range (perform_duckduckgo_search
        (some [⟨none, none⟩, ⟨some ⟨some "http://a", "T"⟩, none⟩])).length := by
  decide

/-! ### Claim C5 — FIFO degrade when the selector always fails -/

/-- Trying a candidate succeeds when its page scrapes to a non-empty
extract that the relevance gate accepts (the early-return condition of the
loop body, lines 319-325). -/
def candSucceeds (scrape : String → Option String) (relevant : String → Bool)
    (c : Candidate) : Bool :=
  match scrape c.link with
  | some content => content ≠ "" && relevant content
  | none => false

/-- The trial order the spec prescribes under total selector failure:
consume the working list front to back, stopping at the first success or
after the iteration budget. -/
def specFifoTrace (psucc : Candidate → Bool) : Nat → List Candidate → List Candidate
  | 0, _ => []
  | _ + 1, [] => []
  | fuel + 1, c :: cs => if psucc c then [c] else c :: specFifoTrace psucc fuel cs

/-- Helper: a successful trial returns the scraped content immediately. -/
theorem pipelineStepResult_of_success (scrape : String → Option String)
    (relevant : String → Bool) (chosen : Candidate) (k' : Nat) (r : PipeResult)
    (h : candSucceeds scrape relevant chosen = true) :
    pipelineStepResult scrape relevant chosen k' r =
      ⟨scrape chosen.link, k', [chosen]⟩ := by
  unfold pipelineStepResult
  split
  · rename_i content heq
    unfold candSucceeds at h
    rw [heq] at h ⊢
    simp at h
    simp [h.1, h.2]
  · rename_i heq
    unfold candSucceeds at h
    rw [heq] at h
    simp at h

/-- Helper: a failed trial records the candidate and defers to the rest of
the loop. -/
theorem pipelineStepResult_of_failure (scrape : String → Option String)
    (relevant : String → Bool) (chosen : Candidate) (k' : Nat) (r : PipeResult)
    (h : candSucceeds scrape relevant chosen = false) :
    pipelineStepResult scrape relevant chosen k' r =
      ⟨r.out, r.calls, chosen :: r.tried⟩ := by
  unfold pipelineStepResult
  split
  · rename_i content heq
    unfold candSucceeds at h
    rw [heq] at h
    by_cases hc : content = ""
    · simp [hc]
    · simp [hc] at h
      simp [hc, h]
  · rfl

/-- Helper: when this iteration's selection returned the sentinel, the
loop pops the first remaining candidate (the FIFO degrade). -/
theorem pipelineLoop_cons_selector_none (llm : Nat → Option String)
    (scrape : String → Option String) (relevant : String → Bool)
    (fuel : Nat) (c : Candidate) (cs : List Candidate) (k : Nat)
    (h : (select_best_search_result_id llm k (c :: cs)).1 = none) :
    pipelineLoop llm scrape relevant (fuel + 1) (c :: cs) k =
      pipelineStepResult scrape relevant c
        (select_best_search_result_id llm k (c :: cs)).2
        (pipelineLoop llm scrape relevant fuel cs
          (select_best_search_result_id llm k (c :: cs)).2) := by
  rw [pipelineLoop, h]

/-- Helper: under a selector that always returns the sentinel, the loop
tries exactly the spec's FIFO prefix and returns the first relevant
extract among the first `fuel` candidates. -/
theorem pipelineLoop_fifo (llm : Nat → Option String)
    (scrape : String → Option String) (relevant : String → Bool)
    (hsel : ∀ k rs, (select_best_search_result_id llm k rs).1 = none) :
    ∀ (fuel : Nat) (rs : List Candidate) (k : Nat),
      (pipelineLoop llm scrape relevant fuel rs k).tried
          = specFifoTrace (candSucceeds scrape relevant) fuel rs
        ∧ (pipelineLoop llm scrape relevant fuel rs k).out
          = ((rs.take fuel).find? (candSucceeds scrape relevant)).bind
              (fun c => scrape c.link) := by
  intro fuel
  induction fuel with
  | zero => intro rs k; simp [pipelineLoop, specFifoTrace]
  | succ fuel ih =>
    intro rs k
    match rs with
    | [] => simp [pipelineLoop, specFifoTrace]
    | c :: cs =>
      rw [pipelineLoop_cons_selector_none llm scrape relevant fuel c cs k
        (hsel k (c :: cs))]
      cases hp : candSucceeds scrape relevant c with
      | true =>
        rw [pipelineStepResult_of_success _ _ _ _ _ hp]
        constructor
        · simp [specFifoTrace, hp]
        · rw [List.take_succ_cons, List.find?_cons_of_pos _ hp]
          rfl
      | false =>
        rw [pipelineStepResult_of_failure _ _ _ _ _ hp]
        obtain ⟨ht, ho⟩ :=
          ih cs (select_best_search_result_id llm k (c :: cs)).2
        constructor
        · simp only [specFifoTrace, hp, if_false, Bool.false_eq_true]
          exact congrArg (c :: ·) ht
        · rw [List.take_succ_cons,
            List.find?_cons_of_neg _ (by simp [hp])]
          exact ho

/-- Helper: the retry loop never selects anything when every LLM call
fails. -/
theorem selectAttempts_llm_none (n : Nat) :
    ∀ (a k : Nat), (selectAttempts (fun _ => none) n a k).1 = none := by
  intro a
  induction a with
  | zero => intro k; rfl
  | succ a ih => intro k; exact ih (k + 1)

/-- Helper: `select_best_search_result_id` returns the sentinel on every
call when every selection LLM call fails. -/
theorem select_best_llm_none (k : Nat) (rs : List Candidate) :
    (select_best_search_result_id (fun _ => none) k rs).1 = none := by
  unfold select_best_search_result_id
  split
  · rfl
  · exact selectAttempts_llm_none rs.length SEARCH_RETRY_LIMIT k

/-- Helper: taking up to the length-capped budget is taking up to the
budget. -/
theorem take_min_length_left {α : Type} (l : List α) (n : Nat) :
    l.take (min l.length n) = l.take n := by
  rw [min_comm, ← List.take_take, List.take_length]

/-- C5: when `select_best_search_result_id` returns the no-selection
sentinel on every call, `run_ai_search_pipeline` (once it reaches the
loop: the synthesized query is truthy) tries candidates strictly in
original document order by popping the head of the working list each
iteration — the tried sequence is exactly the FIFO prefix — stopping at
the first candidate whose extract is relevant or after
`min(initialCandidateCount, SEARCH_RETRY_LIMIT)` iterations, and returns
that first relevant extract (or `None`). -/
theorem run_ai_search_pipeline_fifo_on_selector_failure
    (queryReply : Option String) (llm : Nat → Option String)
    (fetched : Option (List ResultDiv)) (scrape : String → Option String)
    (relevant : String → Bool)
    (hsel : ∀ k rs, (select_best_search_result_id llm k rs).1 = none)
    (hq : ∃ q, generate_search_query queryReply = some q ∧ q ≠ "") :
    (run_ai_search_pipeline queryReply llm fetched scrape relevant).tried
        = specFifoTrace (candSucceeds scrape relevant)
            (min (perform_duckduckgo_search fetched).length SEARCH_RETRY_LIMIT)
            (perform_duckduckgo_search fetched)
      ∧ (run_ai_search_pipeline queryReply llm fetched scrape relevant).out
        = (((perform_duckduckgo_search fetched).take SEARCH_RETRY_LIMIT).find?
            (candSucceeds scrape relevant)).bind (fun c => scrape c.link) := by
  obtain ⟨q, hq1, hq2⟩ := hq
  unfold run_ai_search_pipeline
  split
  · rename_i heqn
    rw [heqn] at hq1
    simp at hq1
  · rename_i q' heq
    have hqq : q' = q := by
      have := heq.symm.trans hq1
      injection this
    rw [hqq, if_neg hq2]
    split
    · rename_i hemp
      have hnil : perform_duckduckgo_search fetched = [] := by
        simpa using hemp
      rw [hnil]
      simp [specFifoTrace]
    · have hmain := pipelineLoop_fifo llm scrape relevant hsel
        (min (perform_duckduckgo_search fetched).length SEARCH_RETRY_LIMIT)
        (perform_duckduckgo_search fetched) 0
      refine ⟨hmain.1, ?_⟩
      rw [hmain.2, take_min_length_left]

/-- Witness for C5: two candidates, every selection call failing, every
scrape failing — the pipeline tries both in document order and returns
`None`. -/
theorem run_ai_search_pipeline_fifo_witness :
    (run_ai_search_pipeline (some "q") (fun _ => none)
        (some [⟨some ⟨some "u1", "T1"⟩, none⟩, ⟨some ⟨some "u2", "T2"⟩, none⟩])
        (fun _ => none) (fun _ => false)).tried
        = specFifoTrace (candSucceeds (fun _ => none) (fun _ => false))
            (min (perform_duckduckgo_search
              (some [⟨some ⟨some "u1", "T1"⟩, none⟩,
                ⟨some ⟨some "u2", "T2"⟩, none⟩])).length SEARCH_RETRY_LIMIT)
            (perform_duckduckgo_search
              (some [⟨some ⟨some "u1", "T1"⟩, none⟩,
                ⟨some ⟨some "u2", "T2"⟩, none⟩]))
      ∧ (run_ai_search_pipeline (some "q") (fun _ => none)
          (some [⟨some ⟨some "u1", "T1"⟩, none⟩, ⟨some ⟨some "u2", "T2"⟩, none⟩])
          (fun _ => none) (fun _ => false)).out
        = (((perform_duckduckgo_search
              (some [⟨some ⟨some "u1", "T1"⟩, none⟩,
                ⟨some ⟨some "u2", "T2"⟩, none⟩])).take SEARCH_RETRY_LIMIT).find?
            (candSucceeds (fun _ => none) (fun _ => false))).bind
            (fun c => (fun _ => none : String → Option String) c.link) :=
  run_ai_search_pipeline_fifo_on_selector_failure (some "q") (fun _ => none)
    (some [⟨some ⟨some "u1", "T1"⟩, none⟩, ⟨some ⟨some "u2", "T2"⟩, none⟩])
    (fun _ => none) (fun _ => false)
    (fun k rs => select_best_llm_none k rs)
    ⟨"q", by decide, by decide⟩

/-! ### Claim C2 — consecutive user turns across REPL iterations -/

/-- Helper: streaming over a history that ends in some turn either leaves
it unchanged (failure) or appends exactly one assistant turn (success). -/
theorem stream_and_record_shape (chunks : List String) (ok : Bool)
    (h : List Turn) (u : Turn) :
    (stream_and_record_assistant_response chunks ok (h ++ [u])).1 = h ++ [u]
    ∨ (stream_and_record_assistant_response chunks ok (h ++ [u])).1 =
        h ++ [u, ⟨"assistant", String.join chunks⟩] := by
  unfold stream_and_record_assistant_response
  have hne : h ++ [u] ≠ [] := by simp
  rw [if_neg hne]
  cases ok with
  | false => exact Or.inl rfl
  | true =>
    refine Or.inr ?_
    simp

/-- C2 (amended): a single iteration of `main` never appends two user
turns: it leaves `conversation_history` unchanged, or extends it by
exactly one user turn, or by one user turn followed by one assistant turn
(the context rewrite pops the pending user turn before pushing its
replacement).  Consecutive user turns therefore arise exactly across
iterations that fail to append an assistant turn — see the
counterexample. -/
theorem mainIter_history_extension_shape (O : MainOracles)
    (history : List Turn) (input : String) :
    (mainIter O history input).1 = history
    ∨ (∃ u, (mainIter O history input).1 = history ++ [⟨"user", u⟩])
    ∨ (∃ u a, (mainIter O history input).1 =
        history ++ [⟨"user", u⟩, ⟨"assistant", a⟩]) := by
  unfold mainIter
  split
  · exact Or.inl rfl
  · split
    · exact Or.inl rfl
    · split
      · exact Or.inr (Or.inl ⟨input, rfl⟩)
      · rename_i d n heq
        dsimp only
        have hdrop : (history ++ [(⟨"user", input⟩ : Turn)]).dropLast = history := by
          simp
        by_cases hd : d.truthy
        · rw [if_pos hd]
          split
          · rename_i c heqc
            by_cases hc : c = ""
            · rw [if_neg (by simp [hc])]
              rw [hdrop]
              rcases stream_and_record_shape O.streamChunks O.streamOk history
                  ⟨"user", promptFailedSearch
                    (((history ++ [(⟨"user", input⟩ : Turn)]).getLast?.map Turn.content).getD "")⟩
                with h | h
              · exact Or.inr (Or.inl ⟨_, h⟩)
              · exact Or.inr (Or.inr ⟨_, _, h⟩)
            · rw [if_pos (by simpa using hc)]
              rw [hdrop]
              rcases stream_and_record_shape O.streamChunks O.streamOk history
                  ⟨"user", promptWithContext c
                    (((history ++ [(⟨"user", input⟩ : Turn)]).getLast?.map Turn.content).getD "")⟩
                with h | h
              · exact Or.inr (Or.inl ⟨_, h⟩)
              · exact Or.inr (Or.inr ⟨_, _, h⟩)
          · rw [hdrop]
            rcases stream_and_record_shape O.streamChunks O.streamOk history
                ⟨"user", promptFailedSearch
                  (((history ++ [(⟨"user", input⟩ : Turn)]).getLast?.map Turn.content).getD "")⟩
              with h | h
            · exact Or.inr (Or.inl ⟨_, h⟩)
            · exact Or.inr (Or.inr ⟨_, _, h⟩)
        · rw [if_neg hd]
          rcases stream_and_record_shape O.streamChunks O.streamOk history
              ⟨"user", input⟩ with h | h
          · exact Or.inr (Or.inl ⟨_, h⟩)
          · exact Or.inr (Or.inr ⟨_, _, h⟩)

/-- C2 (counterexample): two consecutive REPL iterations on the inputs
`a` then `b` — both of which hit the `TypeError` of the search decision
and therefore never append an assistant turn — leave the history
`[system, user a, user b]`, which DOES contain two consecutive user
turns. -/
theorem runMain_consecutive_user_turns :
    hasConsecutiveUserTurns (runMain
      ⟨none, none, fun _ => none, none, fun _ => none, fun _ => false, false, []⟩
      [⟨"system", "m"⟩] ["a", "b"]) = true := by
  decide
